import Mathlib

/-!
Verification of the task-automation service: a shallow embedding of its
task classifier (`src/tasks/parser.py`), LLM gateway client
(`src/llm/client.py`), script-install executor
(`src/tasks/executors/install_script.py`) and path-access policy
(`src/utils/security.py`), together with theorems settling the spec's
claims about them.

Conventions: Python dicts are association lists, JSON values are the
`Json` inductive below, raised exceptions are `Except.error` values of
`PyErr`, and external effects (HTTP responses, subprocess behaviour,
the filesystem) are supplied as explicit simulation environments.
-/

set_option maxRecDepth 4000

/-- The character `{` (kept as a named constant so that string-literal
scanning of this file stays trivial). -/
def lbrace : Char := Char.ofNat 123

/-- The character `}`. -/
def rbrace : Char := Char.ofNat 125

/-- Python `str.lower()` (ASCII-faithful, which covers every string the
embedded code manipulates). -/
def pyLower (s : String) : String := String.mk (s.data.map Char.toLower)

/-- The characters Python `str.strip()` removes by default. -/
def pyWhitespace (c : Char) : Bool :=
  c = ' ' || c = '\t' || c = '\n' || c = '\r' || c = '\x0b' || c = '\x0c'

/-- Python `str.strip()`: remove leading and trailing whitespace. -/
def pyStrip (s : String) : String :=
  String.mk (((s.data.dropWhile pyWhitespace).reverse.dropWhile pyWhitespace).reverse)

/-- Python's substring test `needle in hay`. -/
def pyIn (needle hay : String) : Bool := decide (needle.data <:+: hay.data)

/-- Python `str.startswith`. -/
def pyStartswith (pre s : String) : Bool := decide (pre.data <+: s.data)

/-- Python `repr` of a string as used by `str(KeyError(k))`: the key
between single quotes with control characters and quotes escaped. -/
def pyReprChar (c : Char) : String :=
  if c = '\n' then "\\n"
  else if c = '\t' then "\\t"
  else if c = '\\' then "\\\\"
  else if c = '\'' then "\\'"
  else String.singleton c

/-- Python `repr` of a string (restricted to the escapes above). -/
def pyRepr (s : String) : String :=
  "'" ++ String.join (s.data.map pyReprChar) ++ "'"

/-- JSON values, standing in for the Python objects produced by
`json.loads` and consumed by the response validators. -/
inductive Json where
  | null
  | bool (b : Bool)
  | num (n : Int)
  | str (s : String)
  | arr (elems : List Json)
  | obj (fields : List (String × Json))

/-- Field lookup in a JSON object (Python `d[k]` / `k in d`). -/
def Json.lookup : List (String × Json) → String → Option Json
  | [], _ => none
  | (k, v) :: rest, key => if k = key then some v else Json.lookup rest key

/-- Whether a JSON value is an object (Python `isinstance(x, dict)`). -/
def Json.isObj : Json → Bool
  | .obj _ => true
  | _ => false

/-- Python exceptions raised by the embedded code. -/
inductive PyErr where
  | valueError (msg : String)
  | runtimeError (msg : String)
  | typeError (msg : String)
deriving DecidableEq

/-- Python `str(e)` for the exceptions above. -/
def PyErr.text : PyErr → String
  | .valueError m => m
  | .runtimeError m => m
  | .typeError m => m

/-! ## LLM Gateway Client (`src/llm/client.py`, `LLMClient`) -/

/-- Errors raised by `LLMClient._make_request` / `generate`:
`invalidInput` is the `ValueError` from input validation in `generate`;
`timedOutAfterAttempts n` is `RuntimeError(f"Request timed out after {n}
attempts")`; `httpStatusFailed s` is the `RuntimeError("API request
failed: ...")` raised from the `httpx.HTTPStatusError` handler after
`raise_for_status` on status `s`; `invalidResponseFormat` is the
`RuntimeError("Invalid API response format: ...")` raised on
`KeyError`/`IndexError` while extracting the content (the code then
re-wraps it to `"LLM request failed: Invalid API response format: ..."`
in the generic handler); `requestFailed` is the generic
`RuntimeError("LLM request failed: ...")` for every other exception
(JSON decode failure, pydantic validation failure, `TypeError`). -/
inductive LLMError where
  | invalidInput (msg : String)
  | timedOutAfterAttempts (n : Nat)
  | httpStatusFailed (status : Nat)
  | invalidResponseFormat
  | requestFailed
deriving DecidableEq

/-- The f-string `f"Request timed out after {self.max_retries} attempts"`
used by the final-attempt timeout handler. -/
def timedOutMessage (n : Nat) : String :=
  "Request timed out after " ++ toString n ++ " attempts"

/-- Simulated body of one HTTP response: `badJson` means
`response.json()` raises, `json j` means it returns the value `j`. -/
inductive RespBody where
  | badJson
  | json (j : Json)

/-- Simulated transport outcome of one request attempt. -/
inductive AttemptOutcome where
  | timeout
  | resp (status : Nat) (body : RespBody)

/-- Observable side effects of one `_make_request` call: the backoff
sleeps performed (`asyncio.sleep`) and the `timeout=` value passed to
`client.post` on each attempt, in order. -/
structure GatewayLog where
  sleeps : List Nat
  timeoutsUsed : List Nat

/-- `LLMResponse(**data)` validation followed by
`validated_response.choices[0]["message"]["content"]`:
pydantic requires `data` to be a mapping with a `choices` key holding a
list of mappings (anything else is a `ValidationError`, caught by the
generic handler); then an empty list gives `IndexError`, a missing
`message` or `content` key gives `KeyError` (both reported as "Invalid
API response format"), and subscripting a non-mapping `message` value
gives `TypeError` (generic handler). -/
def extractContent (j : Json) : Except LLMError Json :=
  match j with
  | .obj fields =>
    match Json.lookup fields "choices" with
    | some (.arr choices) =>
      if choices.all Json.isObj then
        match choices with
        | [] => .error .invalidResponseFormat
        | first :: _ =>
          match first with
          | .obj firstFields =>
            match Json.lookup firstFields "message" with
            | some (.obj msgFields) =>
              match Json.lookup msgFields "content" with
              | some content => .ok content
              | none => .error .invalidResponseFormat
            | some _ => .error .requestFailed
            | none => .error .invalidResponseFormat
          | _ => .error .requestFailed
      else .error .requestFailed
    | _ => .error .requestFailed
  | _ => .error .requestFailed

/-- The retry loop of `_make_request` (`for attempt in range(3)`), with
the per-attempt transport outcome supplied by `env`.  `remaining` is the
number of loop iterations left (the loop starts with `attempt = 0`,
`remaining = 3`); falling off the loop returns Python `None`, modelled
as `.ok none`.  Per attempt: the request timeout
`min(base_timeout * (attempt+1), max_timeout)` is recorded; a 429 with
an attempt remaining sleeps `min(2**attempt, 8)` and retries; a
non-success status (httpx `raise_for_status` raises unless the status is
2xx) is a hard failure; a timeout retries silently except on the last
attempt, which raises naming the attempt count. -/
def runAttempts (env : Nat → AttemptOutcome) :
    Nat → Nat → GatewayLog → GatewayLog × Except LLMError (Option Json)
  | _, 0, log => (log, .ok none)
  | attempt, remaining + 1, log =>
    let tval := min (30 * (attempt + 1)) 90
    let log1 : GatewayLog := { log with timeoutsUsed := log.timeoutsUsed ++ [tval] }
    match env attempt with
    | .timeout =>
      if attempt = 3 - 1 then (log1, .error (.timedOutAfterAttempts 3))
      else runAttempts env (attempt + 1) remaining log1
    | .resp status body =>
      if status = 429 ∧ attempt < 3 - 1 then
        let wait := min (2 ^ attempt) 8
        runAttempts env (attempt + 1) remaining
          { log1 with sleeps := log1.sleeps ++ [wait] }
      else if ¬ (200 ≤ status ∧ status ≤ 299) then
        (log1, .error (.httpStatusFailed status))
      else
        match body with
        | .badJson => (log1, .error .requestFailed)
        | .json j => (log1, (extractContent j).map some)

/-- `LLMClient._make_request`: run the retry loop from attempt 0 with
`max_retries = 3` and an empty effect log. -/
def makeRequest (env : Nat → AttemptOutcome) :
    GatewayLog × Except LLMError (Option Json) :=
  runAttempts env 0 3 ⟨[], []⟩

/-- `LLMClient.generate`: validate the prompt and temperature, then
delegate to `_make_request` (the `Message` construction cannot fail for
a plain string prompt). -/
def generate (env : Nat → AttemptOutcome) (prompt : String) (temperature : ℚ) :
    GatewayLog × Except LLMError (Option Json) :=
  if prompt = "" then
    (⟨[], []⟩, .error (.invalidInput "Prompt must be a non-empty string"))
  else if ¬ (0 ≤ temperature ∧ temperature ≤ 1) then
    (⟨[], []⟩, .error (.invalidInput "Temperature must be between 0 and 1"))
  else makeRequest env

/-! ## Task Classifier (`src/tasks/parser.py`, `TaskParser`) -/

/-- Errors raised by CPython `str.format`: `keyError k` is the
`KeyError` raised when a replacement field names an argument `k` that
was not supplied; `valueError m` covers the structural format-string
errors (`"Single '\x7d' encountered in format string"` and kin). -/
inductive FmtError where
  | keyError (key : String)
  | valueError (msg : String)
deriving DecidableEq

/-- Scanner state for the `str.format` pass: `lit` is literal text,
`litClose` has just seen a lone `}`, `openBr` has just seen a lone `{`,
`fieldName acc` is inside a replacement-field name, `conv name` has seen
`!` after a name, and `spec name depth` is inside a format spec with
`depth` pending nested braces.  CPython scans a replacement field in
full and only then resolves the name, so name resolution happens when
the field's closing brace is reached. -/
inductive FmtState where
  | lit
  | litClose
  | openBr
  | fieldName (acc : List Char)
  | conv (name : List Char)
  | spec (name : List Char) (depth : Nat)

/-- Resolve a scanned field name against the single keyword argument
`task_description` of the call site
`prompt.format(task_description=...)`: any other name raises `KeyError`
with the raw name.  `withSpec` marks fields carrying a conversion or
format spec; the embedded template attaches neither to its one known
field, so that branch (never taken on `promptTemplate`) reports a
placeholder `ValueError`. -/
def resolveField (value : String) (name : List Char) (withSpec : Bool)
    (rest : Except FmtError String) : Except FmtError String :=
  if name = [] then .error (.valueError "Replacement index 0 out of range")
  else if String.mk name = "task_description" then
    if withSpec then
      .error (.valueError "conversion/format spec not used by the embedded template")
    else (fun t => value ++ t) <$> rest
  else .error (.keyError (String.mk name))

/-- One pass of CPython `str.format` specialised to the keyword
arguments `{task_description: value}`, as a character-at-a-time state
machine over the template. -/
def pyFormatGo (value : String) : FmtState → List Char → Except FmtError String
  | .lit, [] => .ok ""
  | .lit, c :: cs =>
    if c = lbrace then pyFormatGo value .openBr cs
    else if c = rbrace then pyFormatGo value .litClose cs
    else (fun t => c.toString ++ t) <$> pyFormatGo value .lit cs
  | .litClose, [] => .error (.valueError "Single '\x7d' encountered in format string")
  | .litClose, c :: cs =>
    if c = rbrace then (fun t => rbrace.toString ++ t) <$> pyFormatGo value .lit cs
    else .error (.valueError "Single '\x7d' encountered in format string")
  | .openBr, [] => .error (.valueError "Single '\x7b' encountered in format string")
  | .openBr, c :: cs =>
    if c = lbrace then (fun t => lbrace.toString ++ t) <$> pyFormatGo value .lit cs
    else if c = rbrace then
      .error (.valueError "Replacement index 0 out of range")
    else if c = ':' then pyFormatGo value (.spec [] 0) cs
    else if c = '!' then pyFormatGo value (.conv []) cs
    else pyFormatGo value (.fieldName [c]) cs
  | .fieldName _, [] =>
    .error (.valueError "Single '\x7b' encountered in format string")
  | .fieldName acc, c :: cs =>
    if c = lbrace then .error (.valueError "unexpected '\x7b' in field name")
    else if c = rbrace then
      resolveField value acc false (pyFormatGo value .lit cs)
    else if c = ':' then pyFormatGo value (.spec acc 0) cs
    else if c = '!' then pyFormatGo value (.conv acc) cs
    else pyFormatGo value (.fieldName (acc ++ [c])) cs
  | .conv _, [] =>
    .error (.valueError "end of string while looking for conversion specifier")
  | .conv name, _ :: cs => pyFormatGo value (.spec name 0) cs
  | .spec _ _, [] => .error (.valueError "unmatched '\x7b' in format spec")
  | .spec name depth, c :: cs =>
    if c = rbrace then
      match depth with
      | 0 => resolveField value name true (pyFormatGo value .lit cs)
      | d + 1 => pyFormatGo value (.spec name d) cs
    else if c = lbrace then pyFormatGo value (.spec name (depth + 1)) cs
    else pyFormatGo value (.spec name depth) cs

/-- `template.format(task_description=value)`. -/
def pyFormat (template value : String) : Except FmtError String :=
  pyFormatGo value .lit template.data

/-- `str(e)` for a format error (`str(KeyError(k))` is `repr(k)`). -/
def FmtError.text : FmtError → String
  | .keyError k => pyRepr k
  | .valueError m => m

/-- The prompt template of `TaskParser._parse_with_llm`, byte for byte
(braces written via `lbrace`/`rbrace` constants in `\x7b`-free form
below through `pyFormat`'s character constants; here they appear as
`\x7b`/`\x7d` escapes). -/
def promptTemplate : String :=
  "\n        Analyze this task and extract key information in JSON format.\n        Task: {task_description}\n        \n        Return JSON with the following structure:\n        \x7b\n            \"task_type\": \"string\",\n            \"parameters\": \x7b\n                // task specific parameters\n            \x7d\n        \x7d\n        "

/-- Fixed `script_url` parameter emitted by `_handle_install_script`. -/
def fixedScriptUrl : String :=
  "https://raw.githubusercontent.com/sanand0/tools-in-data-science-public/tds-2025-01/project-1/datagen.py"

/-- Fixed `email` parameter emitted by `_handle_install_script` (also
the default email of the script-install executor). -/
def fixedEmail : String := "anshuman.singh@gramener.com"

/-- `TaskParser._handle_install_script`: requires the literal substring
`datagen.py`, else raises `ValueError`; otherwise returns the fixed
task record. -/
def handleInstallScript (d : String) : Except PyErr Json :=
  if pyIn "datagen.py" d = false then
    .error (.valueError "Invalid install script task: datagen.py not specified")
  else
    .ok (.obj [("task_type", .str "install_run_script"),
      ("parameters", .obj [("script_url", .str fixedScriptUrl),
        ("email", .str fixedEmail)])])

/-- `TaskParser._handle_format_markdown`. -/
def handleFormatMarkdown (_ : String) : Except PyErr Json :=
  .ok (.obj [("task_type", .str "format_markdown"), ("parameters", .obj [])])

/-- `TaskParser._handle_count_weekday`. -/
def handleCountWeekday (_ : String) : Except PyErr Json :=
  .ok (.obj [("task_type", .str "count_weekday"),
    ("parameters", .obj [("weekday", .str "wednesday"),
      ("input_file", .str "data/dates.txt"),
      ("output_file", .str "data/dates-wednesdays.txt")])])

/-- `TaskParser._handle_sort_contacts`. -/
def handleSortContacts (_ : String) : Except PyErr Json :=
  .ok (.obj [("task_type", .str "sort_contacts"), ("parameters", .obj [])])

/-- `TaskParser._handle_recent_logs`. -/
def handleRecentLogs (_ : String) : Except PyErr Json :=
  .ok (.obj [("task_type", .str "recent_logs"), ("parameters", .obj [])])

/-- `TaskParser._handle_extract_email`. -/
def handleExtractEmail (_ : String) : Except PyErr Json :=
  .ok (.obj [("task_type", .str "extract_email"), ("parameters", .obj [])])

/-- `TaskParser._handle_markdown_index`. -/
def handleMarkdownIndex (_ : String) : Except PyErr Json :=
  .ok (.obj [("task_type", .str "markdown_index"),
    ("parameters", .obj [("input_dir", .str "/data/docs"),
      ("output_file", .str "/data/docs/index.json")])])

/-- `TaskParser._handle_credit_card`. -/
def handleCreditCard (_ : String) : Except PyErr Json :=
  .ok (.obj [("task_type", .str "credit_card"), ("parameters", .obj [])])

/-- `TaskParser._handle_similar_comments`. -/
def handleSimilarComments (_ : String) : Except PyErr Json :=
  .ok (.obj [("task_type", .str "similar_comments"),
    ("parameters", .obj [("input_file", .str "/data/comments.txt"),
      ("output_file", .str "/data/comments-similar.txt")])])

/-- `TaskParser._handle_ticket_sales`. -/
def handleTicketSales (_ : String) : Except PyErr Json :=
  .ok (.obj [("task_type", .str "ticket_sales"), ("parameters", .obj [])])

/-- `TaskParser._handle_fetch_api`. -/
def handleFetchApi (_ : String) : Except PyErr Json :=
  .ok (.obj [("task_type", .str "fetch_api"),
    ("parameters", .obj [("url", .str "https://example.com/api"),
      ("output_path", .str "/data/api_data.json")])])

/-- `TaskParser._handle_git_operations`. -/
def handleGitOperations (_ : String) : Except PyErr Json :=
  .ok (.obj [("task_type", .str "git_operations"),
    ("parameters", .obj [("repo_url", .str "https://github.com/example/repo.git"),
      ("commit_message", .str "Automated commit")])])

/-- `TaskParser._task_handlers`, in the dict's insertion order (Python
dict iteration order, which is what `for handler in self._task_handlers`
follows). -/
def taskHandlers : List (String × (String → Except PyErr Json)) :=
  [("install_run_script", handleInstallScript),
   ("format_markdown", handleFormatMarkdown),
   ("count_weekday", handleCountWeekday),
   ("sort_contacts", handleSortContacts),
   ("recent_logs", handleRecentLogs),
   ("extract_email", handleExtractEmail),
   ("markdown_index", handleMarkdownIndex),
   ("credit_card", handleCreditCard),
   ("similar_comments", handleSimilarComments),
   ("ticket_sales", handleTicketSales),
   ("fetch_api", handleFetchApi),
   ("git_operations", handleGitOperations)]

/-- Simulated behaviour of `self.llm_client.generate(...)` as observed
by `_parse_with_llm`: either the call raises (carrying `str(e)`), or it
returns a string whose `json.loads(response.strip())` outcome is
`decoded` (`Except.error` holding `str` of the `JSONDecodeError`). -/
inductive LLMReply where
  | genFails (detail : String)
  | genReturns (decoded : Except String Json)

/-- The structural check of `_parse_with_llm`:
`isinstance(result, dict) and 'task_type' in result and 'parameters' in
result` (nothing in the code checks that `parameters` is a mapping). -/
def validLlmStructure : Json → Bool
  | .obj fields =>
    (Json.lookup fields "task_type").isSome && (Json.lookup fields "parameters").isSome
  | _ => false

/-- `TaskParser._parse_with_llm`.  Returns the outcome plus the number
of times the LLM gateway was invoked.  The code first evaluates
`prompt.format(task_description=task_description)`; only if that
succeeds does it call `self.llm_client.generate`.  A `JSONDecodeError`
is reported as `"Invalid JSON response from LLM: ..."`; every other
exception (including the `ValueError("Invalid LLM response structure")`)
is re-raised as `"Failed to parse task with LLM: ..."`. -/
def parseWithLlm (d : String) (reply : LLMReply) : Except PyErr Json × Nat :=
  match pyFormat promptTemplate d with
  | .error e =>
    (.error (.valueError ("Failed to parse task with LLM: " ++ e.text)), 0)
  | .ok _ =>
    match reply with
    | .genFails detail =>
      (.error (.valueError ("Failed to parse task with LLM: " ++ detail)), 1)
    | .genReturns (.error decodeErr) =>
      (.error (.valueError ("Invalid JSON response from LLM: " ++ decodeErr)), 1)
    | .genReturns (.ok j) =>
      if validLlmStructure j then (.ok j, 1)
      else
        (.error (.valueError
          "Failed to parse task with LLM: Invalid LLM response structure"), 1)

/-- The normalisation step of `parse_task`:
`task_description.strip().lower()`. -/
def normalizeDesc (d : String) : String := pyLower (pyStrip d)

/-- `TaskParser.parse_task`.  Normalise, scan the handler table in
insertion order for the first key occurring as a substring and run its
handler, falling back to `_parse_with_llm`; any exception is re-raised
as `ValueError(f"Task parsing failed: {str(e)}")`.  The second
component counts LLM gateway invocations. -/
def parseTask (d : String) (reply : LLMReply) : Except PyErr Json × Nat :=
  let n := normalizeDesc d
  let core :=
    match taskHandlers.find? (fun kv => pyIn kv.1 n) with
    | some kv => (kv.2 n, 0)
    | none => parseWithLlm n reply
  match core with
  | (.ok j, calls) => (.ok j, calls)
  | (.error e, calls) =>
    (.error (.valueError ("Task parsing failed: " ++ e.text)), calls)

/-! ## Script-Install Executor
(`src/tasks/executors/install_script.py`, `InstallScriptExecutor`) -/

/-- `params.get(k)` on the string-valued parameter dict. -/
def dictGet (ps : List (String × String)) (k : String) : Option String :=
  (ps.find? (fun kv => kv.1 = k)).map (fun kv => kv.2)

/-- `params[k] = v`: update in place if the key exists (keeping its
position, as a Python dict does), else append. -/
def dictSet (ps : List (String × String)) (k v : String) :
    List (String × String) :=
  if (ps.find? (fun kv => kv.1 = k)).isSome then
    ps.map (fun kv => if kv.1 = k then (k, v) else kv)
  else ps ++ [(k, v)]

/-- Python falsiness of `params.get(...)`: `None` or the empty string. -/
def optFalsy : Option String → Bool
  | none => true
  | some s => s = ""

/-- `os.path.join` for the absolute, separator-free components the
executor joins. -/
def pathJoin (a b : String) : String := a ++ "/" ++ b

/-- Simulated outcome of one download attempt (`client.get` +
`raise_for_status` + file write): `fails detail` is a
`httpx.RequestError`/`HTTPStatusError` with `str(e) = detail`. -/
inductive DownloadOutcome where
  | ok
  | fails (detail : String)

/-- Simulated behaviour of the spawned script subprocess: it either
finishes after `duration` seconds with the given exit code and captured
output, or never finishes. -/
inductive ProcBehavior where
  | finishes (duration : Nat) (returncode : Int) (stdout stderr : String)
  | hangs

/-- Simulation environment for one `execute` run: whether
`uv --version` succeeds, the outcome of each `pip install uv` attempt,
the outcome of each download attempt, and the subprocess behaviour. -/
structure ExecEnv where
  uvVersionOk : Bool
  pipInstall : Nat → Bool
  download : Nat → DownloadOutcome
  proc : ProcBehavior

/-- Result of an `execute` run: the returned value or raised exception,
the parameter dict as the caller sees it afterwards (it is mutated in
place), whether `process.kill()` was invoked, and the `logger.error`
lines emitted. -/
structure ExecResult where
  result : Except PyErr Bool
  params : List (String × String)
  killed : Bool
  errorLogs : List String

/-- The `pip install uv` retry loop of `_ensure_uv_installed`
(`for attempt in range(3)`): a success breaks out; a failure on the
last attempt raises; otherwise sleep 1s and retry.  Falling off the
loop (unreachable, since the last failure raises) returns `None`, like
the Python function. -/
def installUvLoop (env : ExecEnv) : Nat → Nat → Except PyErr Unit
  | _, 0 => .ok ()
  | attempt, remaining + 1 =>
    if env.pipInstall attempt then .ok ()
    else if attempt = 3 - 1 then
      .error (.runtimeError "Failed to install uv after 3 attempts")
    else installUvLoop env (attempt + 1) remaining

/-- `InstallScriptExecutor._ensure_uv_installed`: if `uv --version`
succeeds, done; otherwise run the install retry loop. -/
def ensureUv (env : ExecEnv) : Except PyErr Unit :=
  if env.uvVersionOk then .ok () else installUvLoop env 0 3

/-- The download retry loop of `_download_script`
(`for attempt in range(3)`): a successful attempt writes the file and
returns its path; a failure on the last attempt raises
`RuntimeError(f"Failed to download script after 3 attempts: {e}")`;
otherwise sleep 1s and retry.  Falling off the loop (unreachable)
returns Python `None`, modelled as `.ok none`. -/
def downloadLoop (env : ExecEnv) (scriptPath : String) :
    Nat → Nat → Except PyErr (Option String)
  | _, 0 => .ok none
  | attempt, remaining + 1 =>
    match env.download attempt with
    | .ok => .ok (some scriptPath)
    | .fails detail =>
      if attempt = 3 - 1 then
        .error (.runtimeError
          ("Failed to download script after 3 attempts: " ++ detail))
      else downloadLoop env scriptPath (attempt + 1) remaining

/-- `InstallScriptExecutor._download_script`: the target path is
`os.path.join(data_dir, 'datagen.py')`. -/
def downloadScript (env : ExecEnv) (dataDir : String) :
    Except PyErr (Option String) :=
  downloadLoop env (pathJoin dataDir "datagen.py") 0 3

/-- `InstallScriptExecutor._run_script`: wait for the subprocess under
`asyncio.wait_for(..., timeout=300)`.  On `asyncio.TimeoutError` the
child is killed and `RuntimeError("Script execution timed out after 300
seconds")` is raised; a non-zero exit code logs the return code and the
captured stdout/stderr and raises `RuntimeError(f"Script execution
failed with code {rc}")`; both are re-caught by the function's generic
handler, which logs `"Error running script: ..."` and re-raises as
`RuntimeError(f"Script execution failed: {str(e)}")`.  Returns
(killed, error-log lines, outcome). -/
def runScript (proc : ProcBehavior) :
    Bool × List String × Except PyErr Bool :=
  match proc with
  | .finishes duration rc out err =>
    if duration ≤ 300 then
      if rc ≠ 0 then
        (false,
         ["Script failed with return code " ++ toString rc,
          "stdout: " ++ out,
          "stderr: " ++ err,
          "Error running script: Script execution failed with code " ++ toString rc],
         .error (.runtimeError
           ("Script execution failed: Script execution failed with code " ++ toString rc)))
      else (false, [], .ok true)
    else
      (true,
       ["Error running script: Script execution timed out after 300 seconds"],
       .error (.runtimeError
         "Script execution failed: Script execution timed out after 300 seconds"))
  | .hangs =>
    (true,
     ["Error running script: Script execution timed out after 300 seconds"],
     .error (.runtimeError
       "Script execution failed: Script execution timed out after 300 seconds"))

/-- `InstallScriptExecutor.execute`: validate parameters, ensure `uv`,
download the script, chmod it, merge the derived `input_dir` and
`output_file` paths into the caller's parameter dict, then run the
script.  Every exception is logged
(`"Error in InstallScriptExecutor: ..."`) and re-raised unmodified.
`cwd` stands for `os.getcwd()`. -/
def execute (params : List (String × String)) (cwd : String)
    (env : ExecEnv) : ExecResult :=
  let scriptUrl := dictGet params "script_url"
  let email := (dictGet params "email").getD fixedEmail
  if optFalsy scriptUrl then
    let e := PyErr.valueError "script_url parameter is required"
    ⟨.error e, params, false, ["Error in InstallScriptExecutor: " ++ e.text]⟩
  else if email = "" then
    let e := PyErr.valueError "email parameter is required"
    ⟨.error e, params, false, ["Error in InstallScriptExecutor: " ++ e.text]⟩
  else
    let dataDir := pathJoin cwd "data"
    match ensureUv env with
    | .error e =>
      ⟨.error e, params, false, ["Error in InstallScriptExecutor: " ++ e.text]⟩
    | .ok () =>
      match downloadScript env dataDir with
      | .error e =>
        ⟨.error e, params, false, ["Error in InstallScriptExecutor: " ++ e.text]⟩
      | .ok none =>
        let e := PyErr.typeError
          "chmod: path should be string, bytes, os.PathLike or integer, not NoneType"
        ⟨.error e, params, false, ["Error in InstallScriptExecutor: " ++ e.text]⟩
      | .ok (some _) =>
        let inputDir := pathJoin (pathJoin cwd "data") "docs"
        let outputFile := pathJoin (pathJoin (pathJoin cwd "data") "docs") "index.json"
        let params2 := dictSet (dictSet params "input_dir" inputDir)
          "output_file" outputFile
        match runScript env.proc with
        | (killed, logs, .ok b) => ⟨.ok b, params2, killed, logs⟩
        | (killed, logs, .error e) =>
          ⟨.error e, params2, killed,
           logs ++ ["Error in InstallScriptExecutor: " ++ e.text]⟩

/-! ## Path-Access Policy (`src/utils/security.py`, `SecurityCheck`) -/

/-- Filesystem oracle for `is_path_allowed`: `resolve` is
`Path(p).resolve()` (symlink/`..`-free absolute form), `pathExists` is
`Path.exists()`, `isFile` is `Path.is_file()`. -/
structure PathEnv where
  resolve : String → String
  pathExists : String → Bool
  isFile : String → Bool

/-- `SecurityCheck.allowed_extensions`. -/
def allowedExtensions : List String :=
  [".txt", ".json", ".csv", ".md", ".py", ".jpg", ".jpeg", ".png", ".gif"]

/-- `SecurityCheck.allowed_paths`: `project_root / "data"`, `/ "logs"`,
`/ "temp"`. -/
def allowedPaths (projectRoot : String) : List String :=
  [pathJoin projectRoot "data", pathJoin projectRoot "logs",
   pathJoin projectRoot "temp"]

/-- `PurePath.name`: the final path component (the text after the last
separator). -/
def lastComponent (p : String) : String :=
  String.mk ((p.data.reverse.takeWhile (fun c => c ≠ '/')).reverse)

/-- Index of the last `.` in a name, scanning as `str.rfind('.')`. -/
def lastDotIdx (cs : List Char) : Option Nat :=
  (cs.enum.filterMap (fun ic => if ic.2 = '.' then some ic.1 else none)).getLast?

/-- `PurePath.suffix`: the extension of the final component, taken from
its last dot, empty when the dot is leading or trailing (CPython:
`name[i:]` if `0 < i < len(name) - 1` else `''`). -/
def pathSuffix (p : String) : String :=
  let name := (lastComponent p).data
  match lastDotIdx name with
  | none => ""
  | some i => if 0 < i ∧ i < name.length - 1 then String.mk (name.drop i) else ""

/-- `SecurityCheck.is_path_allowed`: resolve, then reject non-existent
paths, then reject paths whose resolved string does not start with one
of the allowed directory strings, then reject existing files whose
lowercased suffix is not in the allowed-extension set. -/
def isPathAllowed (fs : PathEnv) (projectRoot : String) (path : String) : Bool :=
  let p := fs.resolve path
  if ! fs.pathExists p then false
  else if ! (allowedPaths projectRoot).any (fun a => pyStartswith a p) then false
  else if fs.isFile p && ! allowedExtensions.contains (pyLower (pathSuffix p)) then
    false
  else true

/-- Simulated gateway response sequence `[429, 429, 200]`, the third
response carrying a well-formed completion body. -/
def rateLimitScenario : Nat → AttemptOutcome
  | 0 => .resp 429 .badJson
  | 1 => .resp 429 .badJson
  | _ => .resp 200 (.json (.obj [("choices",
      .arr [.obj [("message", .obj [("content", .str "done")])]])]))

/-- Out-of-range default for indexing into the handler table (its key
is not a task keyword, so it never coincides with a real entry). -/
def dfltHandler : String × (String → Except PyErr Json) :=
  ("", fun _ => .ok .null)

/-! ## Helper lemmas -/

/-- The data of an appended string splits into appended data. -/
theorem data_of_append (a b : String) : (a ++ b).data = a.data ++ b.data :=
  String.data_append a b

/-- A string occurs as a substring of anything it is appended to. -/
theorem substring_append_right (a b : String) : b.data <:+: (a ++ b).data := by
  rw [data_of_append]
  exact ⟨a.data, [], by simp⟩

/-- `List.find?` returns the element at the first index whose predicate
holds. -/
theorem find_first_of_matches {α : Type} (dflt : α) (p : α → Bool) :
    ∀ (l : List α) (i : Nat), i < l.length → p (l.getD i dflt) = true →
    (∀ j, j < i → p (l.getD j dflt) = false) →
    l.find? p = some (l.getD i dflt) := by
  intro l
  induction l with
  | nil => intro i hi _ _; simp at hi
  | cons a t ih =>
    intro i hi hp hfirst
    cases i with
    | zero =>
      simp only [List.getD_cons_zero] at hp ⊢
      rw [List.find?_cons_of_pos _ hp]
    | succ n =>
      have ha : p a = false := by
        have := hfirst 0 (Nat.succ_pos n)
        simpa using this
      rw [List.find?_cons_of_neg _ (by simp [ha])]
      simp only [List.getD_cons_succ] at hp ⊢
      exact ih n (by simpa using hi) hp (fun j hj => by
        have := hfirst (j + 1) (by omega)
        simpa using this)

/-- Replacing the value at one key of the dict leaves lookups of other
keys unchanged. -/
theorem find_of_replace (ps : List (String × String)) (k q v : String)
    (h : k ≠ q) :
    List.find? (fun kv => kv.1 = k)
      (ps.map (fun kv => if kv.1 = q then (q, v) else kv)) =
    List.find? (fun kv => kv.1 = k) ps := by
  induction ps with
  | nil => rfl
  | cons a t ih =>
    by_cases ha : a.1 = q
    · have h1 : ¬ (q = k) := fun hq => h hq.symm
      have h2 : ¬ (a.1 = k) := by rw [ha]; exact h1
      simp only [List.map_cons, ha, if_pos]
      rw [List.find?_cons_of_neg _ (by simpa using h1),
        List.find?_cons_of_neg _ (by simpa using h2)]
      exact ih
    · simp only [List.map_cons, ha, if_neg, ite_false]
      by_cases hk : a.1 = k
      · rw [List.find?_cons_of_pos _ (by simpa using hk),
          List.find?_cons_of_pos _ (by simpa using hk)]
      · rw [List.find?_cons_of_neg _ (by simpa using hk),
          List.find?_cons_of_neg _ (by simpa using hk)]
        exact ih

/-- Find over a one-element extension of the dict. -/
theorem find_of_append_single (ps : List (String × String)) (k q v : String)
    (h : k ≠ q) :
    List.find? (fun kv => kv.1 = k) (ps ++ [(q, v)]) =
    List.find? (fun kv => kv.1 = k) ps := by
  induction ps with
  | nil =>
    have h1 : ¬ (q = k) := fun hq => h hq.symm
    simp only [List.nil_append]
    rw [List.find?_cons_of_neg _ (by simpa using h1)]
  | cons a t ih =>
    by_cases hk : a.1 = k
    · rw [List.cons_append, List.find?_cons_of_pos _ (by simpa using hk),
        List.find?_cons_of_pos _ (by simpa using hk)]
    · rw [List.cons_append, List.find?_cons_of_neg _ (by simpa using hk),
        List.find?_cons_of_neg _ (by simpa using hk)]
      exact ih

/-- `dictSet` at one key does not change `dictGet` at another. -/
theorem dictGet_dictSet_ne (ps : List (String × String)) (k q v : String)
    (h : k ≠ q) : dictGet (dictSet ps q v) k = dictGet ps k := by
  unfold dictSet dictGet
  split_ifs with hin
  · rw [find_of_replace ps k q v h]
  · rw [find_of_append_single ps k q v h]

/-- `prompt.format(task_description=...)` on the parser's template fails
with `KeyError` on the raw field name `'\n            "task_type"'`
regardless of the description substituted: the braces of the JSON
example embedded in the template are not escaped, so CPython reads the
text after the second `{` as a replacement-field name. -/
theorem pyFormat_promptTemplate (v : String) :
    pyFormat promptTemplate v = .error (.keyError "\n            \"task_type\"") := rfl

/-! ## Claim theorems -/

/-- C1: for a description matching no keyword, `parse_task` falls into
`_parse_with_llm`, whose `prompt.format(...)` call raises `KeyError`
before `self.llm_client.generate` is ever awaited: the gateway is
invoked zero times (the claim expects exactly one invocation), and the
failure surfaces as the classification `ValueError` below. -/
theorem parser_no_keyword_gateway_never_called (d : String) (reply : LLMReply)
    (h : taskHandlers.find? (fun kv => pyIn kv.1 (normalizeDesc d)) = none) :
    (parseTask d reply).2 = 0 ∧
    (parseTask d reply).1 = .error (.valueError
      ("Task parsing failed: Failed to parse task with LLM: "
        ++ pyRepr "\n            \"task_type\"")) := by
  simp only [parseTask, h, parseWithLlm, pyFormat_promptTemplate]
  exact ⟨by trivial, by trivial⟩

/-- Witness for C1 at the keyword-free description `"foobar"`, with a
perfectly well-formed LLM reply available: the gateway is still never
consulted. -/
theorem parser_no_keyword_gateway_never_called_witness :
    taskHandlers.find? (fun kv => pyIn kv.1 (normalizeDesc "foobar")) = none ∧
    (parseTask "foobar" (.genReturns (.ok (.obj [("task_type", .str "x"),
      ("parameters", .obj [])])))).2 = 0 ∧
    (parseTask "foobar" (.genReturns (.ok (.obj [("task_type", .str "x"),
      ("parameters", .obj [])])))).1 = .error (.valueError
      ("Task parsing failed: Failed to parse task with LLM: "
        ++ pyRepr "\n            \"task_type\"")) := by
  refine ⟨by rfl, ?_⟩
  exact parser_no_keyword_gateway_never_called "foobar" _ (by rfl)

/-- C6: any description whose normalised form contains
`install_run_script` is handled by `_handle_install_script` (that
keyword heads the handler table, so it is always the first match):
without the literal `datagen.py` the parse fails with the validation
`ValueError`; with it, the fixed task record is returned. -/
theorem parser_install_script_validation (d : String) (reply : LLMReply)
    (h : pyIn "install_run_script" (normalizeDesc d) = true) :
    (pyIn "datagen.py" (normalizeDesc d) = false →
      (parseTask d reply).1 = .error (.valueError
        "Task parsing failed: Invalid install script task: datagen.py not specified")) ∧
    (pyIn "datagen.py" (normalizeDesc d) = true →
      (parseTask d reply).1 = .ok (.obj [("task_type", .str "install_run_script"),
        ("parameters", .obj [("script_url", .str fixedScriptUrl),
          ("email", .str fixedEmail)])])) := by
  constructor
  · intro hno
    simp only [parseTask, taskHandlers, List.find?, h, handleInstallScript, hno]
    trivial
  · intro hyes
    simp only [parseTask, taskHandlers, List.find?, h, handleInstallScript, hyes]
    trivial

/-- Witness for C6: both branches at concrete descriptions. -/
theorem parser_install_script_validation_witness :
    (parseTask "install_run_script" (.genFails "")).1 = .error (.valueError
      "Task parsing failed: Invalid install script task: datagen.py not specified") ∧
    (parseTask "run install_run_script on datagen.py" (.genFails "")).1 =
      .ok (.obj [("task_type", .str "install_run_script"),
        ("parameters", .obj [("script_url", .str fixedScriptUrl),
          ("email", .str fixedEmail)])]) := by
  constructor
  · exact (parser_install_script_validation "install_run_script" _ (by rfl)).1 (by rfl)
  · exact (parser_install_script_validation "run install_run_script on datagen.py" _
      (by rfl)).2 (by rfl)

/-- C3 counterexample: `"install_run_script"` itself is a description
whose first (and only) matching keyword is `install_run_script`, yet
`parse_task` does not return that task_type — it raises, because the
description lacks `datagen.py`. -/
theorem parser_first_keyword_match_can_fail :
    ((taskHandlers.find? (fun kv => pyIn kv.1 (normalizeDesc "install_run_script"))).map
      (fun kv => kv.1)) = some "install_run_script" ∧
    (parseTask "install_run_script" (.genFails "")).1 = .error (.valueError
      "Task parsing failed: Invalid install script task: datagen.py not specified") := by
  exact ⟨by rfl, by rfl⟩

/-- Every handler in the table tagged by its key: a non-install handler
returns a task record whose `task_type` is exactly its table key; the
install entry is `handleInstallScript`. -/
theorem handlers_shape (kv : String × (String → Except PyErr Json))
    (hkv : kv ∈ taskHandlers) (n : String) :
    (kv.1 ≠ "install_run_script" →
      ∃ ps, kv.2 n = .ok (.obj [("task_type", .str kv.1), ("parameters", ps)])) ∧
    (kv.1 = "install_run_script" → kv.2 n = handleInstallScript n) := by
  fin_cases hkv <;> constructor <;> intro h <;>
    first
      | exact ⟨_, rfl⟩
      | rfl
      | exact absurd h (by decide)

/-- C3 as amended: when the first keyword (in handler-table insertion
order) occurring as a substring of the normalised description is at
index `i`, `parse_task` returns that keyword as the task_type —
except in the one case where that keyword is `install_run_script` and
`datagen.py` is absent, when it raises the validation error instead. -/
theorem parser_first_match_tiebreak (d : String) (reply : LLMReply) (i : Nat)
    (hi : i < taskHandlers.length)
    (hmatch : pyIn (taskHandlers.getD i dfltHandler).1 (normalizeDesc d) = true)
    (hfirst : ∀ j, j < i →
      pyIn (taskHandlers.getD j dfltHandler).1 (normalizeDesc d) = false) :
    (¬ ((taskHandlers.getD i dfltHandler).1 = "install_run_script" ∧
        pyIn "datagen.py" (normalizeDesc d) = false) →
      ∃ ps, (parseTask d reply).1 = .ok (.obj
        [("task_type", .str (taskHandlers.getD i dfltHandler).1),
         ("parameters", ps)])) ∧
    (((taskHandlers.getD i dfltHandler).1 = "install_run_script" ∧
      pyIn "datagen.py" (normalizeDesc d) = false) →
      (parseTask d reply).1 = .error (.valueError
        "Task parsing failed: Invalid install script task: datagen.py not specified")) := by
  have hfind := find_first_of_matches dfltHandler
    (fun kv => pyIn kv.1 (normalizeDesc d)) taskHandlers i hi hmatch hfirst
  have hmem : taskHandlers.getD i dfltHandler ∈ taskHandlers := by
    rw [List.getD_eq_getElem taskHandlers dfltHandler hi]
    exact List.getElem_mem hi
  have hshape := handlers_shape (taskHandlers.getD i dfltHandler) hmem (normalizeDesc d)
  constructor
  · intro hcond
    by_cases hinst : (taskHandlers.getD i dfltHandler).1 = "install_run_script"
    · have hdg : pyIn "datagen.py" (normalizeDesc d) = true := by
        rcases Bool.eq_false_or_eq_true (pyIn "datagen.py" (normalizeDesc d)) with h | h
        · exact h
        · exact absurd ⟨hinst, h⟩ hcond
      have hrun : (taskHandlers.getD i dfltHandler).2 (normalizeDesc d) =
          handleInstallScript (normalizeDesc d) := hshape.2 hinst
      refine ⟨.obj [("script_url", .str fixedScriptUrl), ("email", .str fixedEmail)], ?_⟩
      simp only [parseTask, hfind, hrun, handleInstallScript, hdg, hinst]
      trivial
    · obtain ⟨ps, hps⟩ := hshape.1 hinst
      refine ⟨ps, ?_⟩
      simp only [parseTask, hfind, hps]
  · intro hcond
    have hrun : (taskHandlers.getD i dfltHandler).2 (normalizeDesc d) =
        handleInstallScript (normalizeDesc d) := hshape.2 hcond.1
    simp only [parseTask, hfind, hrun, handleInstallScript, hcond.2]
    trivial

/-- Witness for C3 at index 3 (`sort_contacts`): earlier keywords do
not occur, so `sort_contacts` is the task_type returned. -/
theorem parser_first_match_tiebreak_witness :
    ∃ ps, (parseTask "please sort_contacts now" (.genFails "")).1 =
      .ok (.obj [("task_type", .str "sort_contacts"), ("parameters", ps)]) := by
  have h := parser_first_match_tiebreak "please sort_contacts now" (.genFails "") 3
    (by decide) (by rfl) ?_
  · exact h.1 (by decide)
  · intro j hj
    interval_cases j <;> rfl

/-- One retry-loop step on a timeout with attempts remaining: the
attempt's timeout value is recorded and the loop silently moves to the
next attempt. -/
theorem runAttempts_timeout_retry (env : Nat → AttemptOutcome)
    (attempt rem : Nat) (log : GatewayLog)
    (h : env attempt = .timeout) (hl : attempt ≠ 2) :
    runAttempts env attempt (rem + 1) log =
      runAttempts env (attempt + 1) rem
        ⟨log.sleeps, log.timeoutsUsed ++ [min (30 * (attempt + 1)) 90]⟩ := by
  simp only [runAttempts, h]
  rw [if_neg (by omega : ¬ (attempt = 3 - 1))]

/-- One retry-loop step on a timeout at the final attempt: the fatal
error names the attempt count. -/
theorem runAttempts_timeout_last (env : Nat → AttemptOutcome)
    (rem : Nat) (log : GatewayLog) (h : env 2 = .timeout) :
    runAttempts env 2 (rem + 1) log =
      (⟨log.sleeps, log.timeoutsUsed ++ [90]⟩,
        .error (.timedOutAfterAttempts 3)) := by
  simp only [runAttempts, h]
  norm_num

/-- One retry-loop step on a 429 with attempts remaining: sleep
`min(2**attempt, 8)` and move to the next attempt. -/
theorem runAttempts_rate_limited_retry (env : Nat → AttemptOutcome)
    (attempt rem : Nat) (log : GatewayLog) (body : RespBody)
    (h : env attempt = .resp 429 body) (hl : attempt < 2) :
    runAttempts env attempt (rem + 1) log =
      runAttempts env (attempt + 1) rem
        ⟨log.sleeps ++ [min (2 ^ attempt) 8],
         log.timeoutsUsed ++ [min (30 * (attempt + 1)) 90]⟩ := by
  simp only [runAttempts, h]
  simp only [true_and]
  rw [if_pos (show attempt < 3 - 1 by omega)]

/-- One retry-loop step on a non-2xx status that is not a retryable
429: `raise_for_status` makes the attempt fail hard, with no sleep. -/
theorem runAttempts_hard_status (env : Nat → AttemptOutcome)
    (attempt rem : Nat) (log : GatewayLog) (status : Nat) (body : RespBody)
    (h : env attempt = .resp status body)
    (hna : ¬ (status = 429 ∧ attempt < 2))
    (hbad : ¬ (200 ≤ status ∧ status ≤ 299)) :
    runAttempts env attempt (rem + 1) log =
      (⟨log.sleeps, log.timeoutsUsed ++ [min (30 * (attempt + 1)) 90]⟩,
        .error (.httpStatusFailed status)) := by
  simp only [runAttempts, h]
  rw [if_neg (by omega : ¬ (status = 429 ∧ attempt < 3 - 1)), if_pos hbad]

/-- One retry-loop step on a 2xx status: the loop terminates with the
body-extraction outcome. -/
theorem runAttempts_success_status (env : Nat → AttemptOutcome)
    (attempt rem : Nat) (log : GatewayLog) (status : Nat) (body : RespBody)
    (h : env attempt = .resp status body)
    (hok : 200 ≤ status ∧ status ≤ 299) :
    runAttempts env attempt (rem + 1) log =
      (⟨log.sleeps, log.timeoutsUsed ++ [min (30 * (attempt + 1)) 90]⟩,
        match body with
        | .badJson => .error .requestFailed
        | .json j => (extractContent j).map some) := by
  simp only [runAttempts, h]
  rw [if_neg (by omega : ¬ (status = 429 ∧ attempt < 3 - 1)),
    if_neg (by omega : ¬ ¬ (200 ≤ status ∧ status ≤ 299))]
  rcases body with _ | j <;> rfl

/-- Reindexing of the per-attempt timeout values when one attempt is
peeled off. -/
theorem timeout_values_shift (attempt k : Nat) :
    (List.range (k + 1)).map (fun j => min (30 * (attempt + j + 1)) 90) =
      (min (30 * (attempt + 1)) 90) ::
        (List.range k).map (fun j => min (30 * (attempt + 1 + j + 1)) 90) := by
  rw [List.range_succ_eq_map, List.map_cons, List.map_map]
  refine congrArg₂ List.cons (by norm_num) ?_
  apply List.map_congr_left
  intro j _
  simp only [Function.comp_apply]
  congr 1
  omega

/-- Whatever the transport outcomes, the retry loop records exactly the
timeout value `min(30 * (attempt+1), 90)` for each attempt it performs,
in attempt order. -/
theorem runAttempts_timeouts_shape (env : Nat → AttemptOutcome) :
    ∀ (rem attempt : Nat) (log : GatewayLog), attempt + rem = 3 → ∃ k, k ≤ rem ∧
      (runAttempts env attempt rem log).1.timeoutsUsed =
        log.timeoutsUsed ++
          (List.range k).map (fun j => min (30 * (attempt + j + 1)) 90) := by
  intro rem
  induction rem with
  | zero => intro attempt log _; exact ⟨0, Nat.le_refl 0, by simp [runAttempts]⟩
  | succ rem ih =>
    intro attempt log htot
    rcases henv : env attempt with _ | ⟨status, body⟩
    · by_cases hlast : attempt = 2
      · subst hlast
        rw [runAttempts_timeout_last env rem log henv]
        exact ⟨1, by omega, by norm_num [show List.range 1 = [0] from rfl]⟩
      · obtain ⟨k, hk, heq⟩ := ih (attempt + 1)
          ⟨log.sleeps, log.timeoutsUsed ++ [min (30 * (attempt + 1)) 90]⟩ (by omega)
        rw [runAttempts_timeout_retry env attempt rem log henv hlast]
        refine ⟨k + 1, by omega, ?_⟩
        rw [heq, timeout_values_shift]
        simp
    · by_cases hretry : status = 429 ∧ attempt < 2
      · obtain ⟨k, hk, heq⟩ := ih (attempt + 1)
          ⟨log.sleeps ++ [min (2 ^ attempt) 8],
           log.timeoutsUsed ++ [min (30 * (attempt + 1)) 90]⟩ (by omega)
        rw [hretry.1] at henv
        rw [runAttempts_rate_limited_retry env attempt rem log body henv hretry.2]
        refine ⟨k + 1, by omega, ?_⟩
        rw [heq, timeout_values_shift]
        simp
      · by_cases hok : 200 ≤ status ∧ status ≤ 299
        · rw [runAttempts_success_status env attempt rem log status body henv hok]
          exact ⟨1, by omega, by norm_num [show List.range 1 = [0] from rfl]⟩
        · rw [runAttempts_hard_status env attempt rem log status body henv hretry hok]
          exact ⟨1, by omega, by norm_num [show List.range 1 = [0] from rfl]⟩

/-- The per-attempt timeout values of any `_make_request` run form a
prefix of `[30, 60, 90]`. -/
theorem timeouts_used_prefix (env : Nat → AttemptOutcome) :
    (makeRequest env).1.timeoutsUsed <+: [30, 60, 90] := by
  obtain ⟨k, hk, heq⟩ := runAttempts_timeouts_shape env 3 0 ⟨[], []⟩ (by omega)
  unfold makeRequest
  rw [heq]
  interval_cases k <;> decide

/-- C4: every attempt `n` posts with timeout `min(30*(n+1), 90)` — so
the values used across a run are always a prefix of `[30, 60, 90]` —
and when all three attempts time out, `generate` (called with a valid
prompt and temperature) fails with the error that names the attempt
count 3, having used timeouts 30, 60 and 90. -/
theorem gateway_timeout_policy (p : String) (t : ℚ)
    (hp : p ≠ "") (ht : 0 ≤ t ∧ t ≤ 1) :
    (generate (fun _ => .timeout) p t).2 = .error (.timedOutAfterAttempts 3) ∧
    (generate (fun _ => .timeout) p t).1.timeoutsUsed = [30, 60, 90] ∧
    "3".data <:+: (timedOutMessage 3).data ∧
    (∀ env : Nat → AttemptOutcome,
      (makeRequest env).1.timeoutsUsed <+: [30, 60, 90]) := by
  have hgen : generate (fun _ => .timeout) p t = makeRequest (fun _ => .timeout) := by
    unfold generate
    rw [if_neg hp, if_neg (not_not_intro ht)]
  refine ⟨?_, ?_, by decide, timeouts_used_prefix⟩
  · rw [hgen]; rfl
  · rw [hgen]; rfl

/-- Witness for C4 at the prompt `"hi"` and the default temperature
0.7. -/
theorem gateway_timeout_policy_witness :
    (generate (fun _ => .timeout) "hi" (7 / 10)).2 =
      .error (.timedOutAfterAttempts 3) ∧
    (generate (fun _ => .timeout) "hi" (7 / 10)).1.timeoutsUsed = [30, 60, 90] := by
  have h := gateway_timeout_policy "hi" (7 / 10) (by decide) (by norm_num)
  exact ⟨h.1, h.2.1⟩

/-- C5: a 429 on an attempt with at least one attempt remaining sleeps
`min(2**attempt, 8)` seconds and retries; a 429 on the final allowed
attempt is a hard failure (`raise_for_status` → `RuntimeError`) with no
further sleep or retry; and on the simulated response sequence
`[429, 429, 200]`, `generate` succeeds on the third attempt, having
slept 1 then 2 seconds. -/
theorem gateway_rate_limit_policy :
    (∀ (env : Nat → AttemptOutcome) (attempt rem : Nat) (log : GatewayLog)
      (body : RespBody), env attempt = .resp 429 body → attempt < 2 →
      runAttempts env attempt (rem + 1) log =
        runAttempts env (attempt + 1) rem
          ⟨log.sleeps ++ [min (2 ^ attempt) 8],
           log.timeoutsUsed ++ [min (30 * (attempt + 1)) 90]⟩) ∧
    (∀ (env : Nat → AttemptOutcome) (rem : Nat) (log : GatewayLog)
      (body : RespBody), env 2 = .resp 429 body →
      runAttempts env 2 (rem + 1) log =
        (⟨log.sleeps, log.timeoutsUsed ++ [90]⟩,
          .error (.httpStatusFailed 429))) ∧
    (generate rateLimitScenario "hi" (7 / 10)).2 = .ok (some (.str "done")) ∧
    (generate rateLimitScenario "hi" (7 / 10)).1.sleeps = [1, 2] := by
  refine ⟨?_, ?_, ?_, ?_⟩
  · intro env attempt rem log body h hl
    exact runAttempts_rate_limited_retry env attempt rem log body h hl
  · intro env rem log body h
    have := runAttempts_hard_status env 2 rem log 429 body h
      (by omega) (by omega)
    simpa using this
  · have hgen : generate rateLimitScenario "hi" (7 / 10) =
        makeRequest rateLimitScenario := by
      unfold generate
      rw [if_neg (by decide : ¬ ("hi" = "")), if_neg (not_not_intro (by norm_num))]
    rw [hgen]; rfl
  · have hgen : generate rateLimitScenario "hi" (7 / 10) =
        makeRequest rateLimitScenario := by
      unfold generate
      rw [if_neg (by decide : ¬ ("hi" = "")), if_neg (not_not_intro (by norm_num))]
    rw [hgen]; rfl

/-- Witness for C5: the retry equation applied at attempt 0 of the
simulated 429 sequence. -/
theorem gateway_rate_limit_policy_witness :
    runAttempts rateLimitScenario 0 3 ⟨[], []⟩ =
      runAttempts rateLimitScenario 1 2 ⟨[1], [30]⟩ := by
  have h := gateway_rate_limit_policy.1 rateLimitScenario 0 2 ⟨[], []⟩
    .badJson rfl (by omega)
  simpa using h

/-- C2 counterexample: a run whose subprocess exits with code 1 and
captured output `OUTMARK`/`ERRMARK` makes `execute` raise an error
whose message contains the exit code but neither the captured stdout
nor the captured stderr (they go to the error log instead). -/
theorem exec_error_message_lacks_output :
    (execute [("script_url", "http://u"), ("email", "e")] "/work"
      ⟨true, fun _ => true, fun _ => .ok, .finishes 10 1 "OUTMARK" "ERRMARK"⟩).result
      = .error (.runtimeError
        "Script execution failed: Script execution failed with code 1") ∧
    ¬ ("OUTMARK".data <:+:
        "Script execution failed: Script execution failed with code 1".data) ∧
    ¬ ("ERRMARK".data <:+:
        "Script execution failed: Script execution failed with code 1".data) ∧
    ("stdout: OUTMARK" ∈ (execute [("script_url", "http://u"), ("email", "e")] "/work"
      ⟨true, fun _ => true, fun _ => .ok, .finishes 10 1 "OUTMARK" "ERRMARK"⟩).errorLogs) := by
  refine ⟨by rfl, by decide, by decide, by decide⟩

/-- C2 as amended: a non-zero exit code makes `execute` raise
`RuntimeError("Script execution failed: Script execution failed with
code {rc}")` — the message carries the return code, not the captured
output — while the captured stdout and stderr are reported through
`logger.error` lines. -/
theorem exec_nonzero_exit_reports_code (params : List (String × String))
    (cwd : String) (env : ExecEnv) (d : Nat) (rc : Int) (out err : String)
    (hurl : optFalsy (dictGet params "script_url") = false)
    (hemail : (dictGet params "email").getD fixedEmail ≠ "")
    (huv : env.uvVersionOk = true)
    (hdl : env.download 0 = .ok)
    (hproc : env.proc = .finishes d rc out err)
    (hd : d ≤ 300) (hrc : rc ≠ 0) :
    (execute params cwd env).result = .error (.runtimeError
      ("Script execution failed: Script execution failed with code " ++ toString rc)) ∧
    (toString rc).data <:+:
      ("Script execution failed: Script execution failed with code " ++ toString rc).data ∧
    ("stdout: " ++ out) ∈ (execute params cwd env).errorLogs ∧
    ("stderr: " ++ err) ∈ (execute params cwd env).errorLogs := by
  have hrun : runScript env.proc =
      (false,
       ["Script failed with return code " ++ toString rc,
        "stdout: " ++ out,
        "stderr: " ++ err,
        "Error running script: Script execution failed with code " ++ toString rc],
       .error (.runtimeError
         ("Script execution failed: Script execution failed with code " ++ toString rc))) := by
    rw [hproc]
    simp only [runScript, if_pos hd, if_pos hrc]
  have hens : ensureUv env = .ok () := by simp [ensureUv, huv]
  have hdls : downloadScript env (pathJoin cwd "data") =
      .ok (some (pathJoin (pathJoin cwd "data") "datagen.py")) := by
    simp [downloadScript, downloadLoop, hdl]
  simp only [execute, hurl, Bool.false_eq_true, if_neg, ite_false,
    if_neg hemail, hens, hdls, hrun]
  refine ⟨by trivial, ?_, by simp, by simp⟩
  exact substring_append_right _ _

/-- Witness for C2 as amended, at exit code 1. -/
theorem exec_nonzero_exit_reports_code_witness :
    (execute [("script_url", "http://u"), ("email", "e")] "/work"
      ⟨true, fun _ => true, fun _ => .ok, .finishes 10 1 "OUT1" "ERR1"⟩).result
      = .error (.runtimeError
        "Script execution failed: Script execution failed with code 1") ∧
    ("stdout: OUT1" ∈ (execute [("script_url", "http://u"), ("email", "e")] "/work"
      ⟨true, fun _ => true, fun _ => .ok, .finishes 10 1 "OUT1" "ERR1"⟩).errorLogs) := by
  have h := exec_nonzero_exit_reports_code
    [("script_url", "http://u"), ("email", "e")] "/work"
    ⟨true, fun _ => true, fun _ => .ok, .finishes 10 1 "OUT1" "ERR1"⟩
    10 1 "OUT1" "ERR1" (by rfl) (by decide) rfl rfl rfl (by omega) (by decide)
  exact ⟨h.1, h.2.2.1⟩

/-- C7 counterexample: a successful run of the script-install executor
adds `input_dir` and `output_file` entries to the caller's parameters
mapping — the ParsedTask's parameters are not immutable downstream. -/
theorem exec_mutates_parameters :
    dictGet [("script_url", "http://u"), ("email", "e")] "input_dir" = none ∧
    dictGet (execute [("script_url", "http://u"), ("email", "e")] "/work"
      ⟨true, fun _ => true, fun _ => .ok, .finishes 10 0 "" ""⟩).params "input_dir"
      = some "/work/data/docs" ∧
    dictGet (execute [("script_url", "http://u"), ("email", "e")] "/work"
      ⟨true, fun _ => true, fun _ => .ok, .finishes 10 0 "" ""⟩).params "output_file"
      = some "/work/data/docs/index.json" := by
  refine ⟨by rfl, by rfl, by rfl⟩

/-- C7 as amended: the only parameter entries any run of `execute` can
touch are `input_dir` and `output_file`; every other key reads the same
before and after, whatever the environment does. -/
theorem exec_parameter_frame (params : List (String × String)) (cwd : String)
    (env : ExecEnv) (k : String)
    (h1 : k ≠ "input_dir") (h2 : k ≠ "output_file") :
    dictGet (execute params cwd env).params k = dictGet params k := by
  simp only [execute]
  split_ifs
  · rfl
  · rfl
  · split
    · rfl
    · split
      · rfl
      · rfl
      · split
        · simp only []
          rw [dictGet_dictSet_ne _ _ _ _ h2, dictGet_dictSet_ne _ _ _ _ h1]
        · simp only []
          rw [dictGet_dictSet_ne _ _ _ _ h2, dictGet_dictSet_ne _ _ _ _ h1]

/-- Witness for C7 as amended: the `email` entry is untouched. -/
theorem exec_parameter_frame_witness :
    dictGet (execute [("script_url", "http://u"), ("email", "e")] "/work"
      ⟨true, fun _ => true, fun _ => .ok, .finishes 10 0 "" ""⟩).params "email"
      = dictGet [("script_url", "http://u"), ("email", "e")] "email" :=
  exec_parameter_frame [("script_url", "http://u"), ("email", "e")] "/work"
    ⟨true, fun _ => true, fun _ => .ok, .finishes 10 0 "" ""⟩ "email"
    (by decide) (by decide)

/-- C9: with the preliminary stages succeeding, a subprocess that runs
past the 300-second `asyncio.wait_for` bound (or never finishes) is
killed and `execute` raises the timeout error whose message names the
300-second bound; a subprocess finishing within the bound is never
killed. -/
theorem exec_timeout_kills_and_fails (params : List (String × String))
    (cwd : String) (env : ExecEnv)
    (hurl : optFalsy (dictGet params "script_url") = false)
    (hemail : (dictGet params "email").getD fixedEmail ≠ "")
    (huv : env.uvVersionOk = true)
    (hdl : env.download 0 = .ok) :
    ((env.proc = .hangs ∨
        (∃ d rc out err, env.proc = .finishes d rc out err ∧ 300 < d)) →
      (execute params cwd env).killed = true ∧
      (execute params cwd env).result = .error (.runtimeError
        "Script execution failed: Script execution timed out after 300 seconds") ∧
      "300".data <:+:
        "Script execution failed: Script execution timed out after 300 seconds".data) ∧
    (∀ d rc out err, env.proc = .finishes d rc out err → d ≤ 300 →
      (execute params cwd env).killed = false) := by
  have hens : ensureUv env = .ok () := by simp [ensureUv, huv]
  have hdls : downloadScript env (pathJoin cwd "data") =
      .ok (some (pathJoin (pathJoin cwd "data") "datagen.py")) := by
    simp [downloadScript, downloadLoop, hdl]
  constructor
  · intro hto
    have hrun : runScript env.proc =
        (true,
         ["Error running script: Script execution timed out after 300 seconds"],
         .error (.runtimeError
           "Script execution failed: Script execution timed out after 300 seconds")) := by
      rcases hto with h | ⟨d, rc, out, err, h, hd⟩
      · rw [h]; rfl
      · rw [h]
        simp only [runScript, if_neg (by omega : ¬ (d ≤ 300))]
    simp only [execute, hurl, Bool.false_eq_true, if_neg, ite_false,
      if_neg hemail, hens, hdls, hrun]
    exact ⟨by trivial, by trivial, by decide⟩
  · intro d rc out err h hd
    have hrun : (runScript env.proc).1 = false := by
      rw [h]
      simp only [runScript, if_pos hd]
      by_cases hrc : rc ≠ 0 <;> simp [hrc]
    rcases hrs : runScript env.proc with ⟨killed, logs, res⟩
    rw [hrs] at hrun
    simp only at hrun
    subst hrun
    rcases res with e | b <;>
      simp only [execute, hurl, Bool.false_eq_true, if_neg, ite_false,
        if_neg hemail, hens, hdls, hrs]

/-- Witness for C9: a hanging subprocess is killed and reported. -/
theorem exec_timeout_kills_and_fails_witness :
    (execute [("script_url", "http://u"), ("email", "e")] "/work"
      ⟨true, fun _ => true, fun _ => .ok, .hangs⟩).killed = true ∧
    (execute [("script_url", "http://u"), ("email", "e")] "/work"
      ⟨true, fun _ => true, fun _ => .ok, .hangs⟩).result = .error (.runtimeError
        "Script execution failed: Script execution timed out after 300 seconds") := by
  have h := (exec_timeout_kills_and_fails
    [("script_url", "http://u"), ("email", "e")] "/work"
    ⟨true, fun _ => true, fun _ => .ok, .hangs⟩
    (by rfl) (by decide) rfl rfl).1 (Or.inl rfl)
  exact ⟨h.1, h.2.1⟩

/-- C8 counterexample: `/app/data/a.txt` lies under the allowed
directory `/app/data` and carries the allowed extension `.txt`, yet on
a filesystem where it does not exist `is_path_allowed` rejects it — the
claim's acceptance direction fails without an existence premise. -/
theorem path_policy_existence_counterexample :
    (allowedPaths "/app").any
      (fun a => pyStartswith a "/app/data/a.txt") = true ∧
    allowedExtensions.contains (pyLower (pathSuffix "/app/data/a.txt")) = true ∧
    isPathAllowed ⟨id, fun _ => false, fun _ => true⟩ "/app" "/app/data/a.txt"
      = false := by
  refine ⟨by decide, by decide, by rfl⟩

/-- C8 as amended: for an existing path, acceptance and rejection work
as claimed — a resolved path under an allowed directory whose
extension check passes (automatic for directories) is accepted, a path
outside every allowed directory is rejected, and an existing file with
a disallowed extension is rejected. -/
theorem path_policy_round_trip (fs : PathEnv) (root p : String) :
    (fs.pathExists (fs.resolve p) = true →
      (allowedPaths root).any (fun a => pyStartswith a (fs.resolve p)) = true →
      (fs.isFile (fs.resolve p) = true →
        allowedExtensions.contains (pyLower (pathSuffix (fs.resolve p))) = true) →
      isPathAllowed fs root p = true) ∧
    ((allowedPaths root).any (fun a => pyStartswith a (fs.resolve p)) = false →
      isPathAllowed fs root p = false) ∧
    (fs.isFile (fs.resolve p) = true →
      allowedExtensions.contains (pyLower (pathSuffix (fs.resolve p))) = false →
      isPathAllowed fs root p = false) := by
  refine ⟨?_, ?_, ?_⟩
  · intro hex hpre hext
    simp only [isPathAllowed, hex, hpre]
    rcases hf : fs.isFile (fs.resolve p) with _ | _
    · simp
    · simpa using hext hf
  · intro hpre
    simp [isPathAllowed, hpre]
  · intro hf hext
    simp only [isPathAllowed, hf, hext]
    rcases hex : fs.pathExists (fs.resolve p) with _ | _
    · simp
    · simp

/-- Witness for C8 as amended: on a filesystem where `/app/data/a.txt`
exists as a file, the policy accepts it; it rejects `/etc/passwd`
(outside every allowed root) and `/app/data/a.exe` (disallowed
extension) on the same filesystem. -/
theorem path_policy_round_trip_witness :
    isPathAllowed ⟨id, fun _ => true, fun _ => true⟩ "/app" "/app/data/a.txt"
      = true ∧
    isPathAllowed ⟨id, fun _ => true, fun _ => true⟩ "/app" "/etc/passwd"
      = false ∧
    isPathAllowed ⟨id, fun _ => true, fun _ => true⟩ "/app" "/app/data/a.exe"
      = false := by
  refine ⟨?_, ?_, ?_⟩
  · exact (path_policy_round_trip ⟨id, fun _ => true, fun _ => true⟩
      "/app" "/app/data/a.txt").1 (by rfl) (by decide) (fun _ => by decide)
  · exact (path_policy_round_trip ⟨id, fun _ => true, fun _ => true⟩
      "/app" "/etc/passwd").2.1 (by decide)
  · exact (path_policy_round_trip ⟨id, fun _ => true, fun _ => true⟩
      "/app" "/app/data/a.exe").2.2 (by rfl) (by decide)

/-- C10: a path that does not exist on the filesystem is rejected by
`is_path_allowed` before the allow-list or extension checks are ever
consulted — existence is a precondition of acceptance. -/
theorem path_policy_rejects_missing (fs : PathEnv) (root p : String)
    (h : fs.pathExists (fs.resolve p) = false) :
    isPathAllowed fs root p = false := by
  simp [isPathAllowed, h]

/-- Witness for C10: `/app/data/b.json` lies under an allowed root and
carries an allowed extension, yet is rejected on a filesystem where it
does not exist. -/
theorem path_policy_rejects_missing_witness :
    (allowedPaths "/app").any
      (fun a => pyStartswith a "/app/data/b.json") = true ∧
    allowedExtensions.contains (pyLower (pathSuffix "/app/data/b.json")) = true ∧
    isPathAllowed ⟨id, fun _ => false, fun _ => true⟩ "/app" "/app/data/b.json"
      = false := by
  refine ⟨by decide, by decide, ?_⟩
  exact path_policy_rejects_missing ⟨id, fun _ => false, fun _ => true⟩
    "/app" "/app/data/b.json" (by rfl)
